import Mathlib

/-!
Verification development for the archive-operation orchestrator of
`7zip_cli.py`: a shallow embedding of its path handling, resource gating,
preference persistence, archive planning and extraction coordination,
together with theorems settling the specification's claims.

Python strings are modelled as Lean `String`; machine-level concerns
(floats in the source appear only in threshold comparisons, which are
modelled exactly over `ℚ`); filesystem and subprocess probes are passed
in as explicit functions or data.
-/

/-! ### String utilities mirroring the Python string methods used by the source -/

/-- The whitespace characters removed by Python `str.strip()` (ASCII subset). -/
def pyIsSpace (c : Char) : Bool :=
  c == ' ' || c == '\t' || c == '\n' || c == '\r' || c == '\x0b' || c == '\x0c'

/-- Python `s.strip()`: drop leading and trailing whitespace. -/
def pyStrip (s : String) : String :=
  ⟨((s.toList.dropWhile pyIsSpace).reverse.dropWhile pyIsSpace).reverse⟩

/-- Python `s.strip(chars)`: drop leading and trailing characters drawn from `cs`. -/
def stripChars (cs : List Char) (s : String) : String :=
  ⟨((s.toList.dropWhile (cs.contains ·)).reverse.dropWhile (cs.contains ·)).reverse⟩

/-- `isPrefixList pat l` decides whether `pat` is a prefix of `l`. -/
def isPrefixList : List Char → List Char → Bool
  | [], _ => true
  | _ :: _, [] => false
  | a :: as, b :: bs => a == b && isPrefixList as bs

/-- One pass of Python `s.replace(old, new)` on character lists:
non-overlapping occurrences replaced left to right. -/
def replaceList (old new : List Char) (l : List Char) : List Char :=
  match l with
  | [] => []
  | c :: rest =>
    if isPrefixList old (c :: rest) && !old.isEmpty then
      new ++ replaceList old new (rest.drop (old.length - 1))
    else
      c :: replaceList old new rest
termination_by l.length
decreasing_by
  · simp only [List.length_drop, List.length_cons]
    omega
  · simp only [List.length_cons]
    omega

/-- Python `s.replace(old, new)`. -/
def pyReplace (s old new : String) : String :=
  ⟨replaceList old.toList new.toList s.toList⟩

/-- Python `s.startswith(pat)`. -/
def strStartsWith (s pat : String) : Bool :=
  isPrefixList pat.toList s.toList

/-- Python `s.endswith(pat)`. -/
def strEndsWith (s pat : String) : Bool :=
  isPrefixList pat.toList.reverse s.toList.reverse

/-- Substring occurrence on character lists (Python `pat in l`). -/
def containsSubList (l pat : List Char) : Bool :=
  match l with
  | [] => pat.isEmpty
  | c :: t => isPrefixList pat (c :: t) || containsSubList t pat

/-- Python `pat in s` for strings. -/
def containsSub (s pat : String) : Bool :=
  containsSubList s.toList pat.toList

/-- Python `s.lower()` (ASCII). -/
def pyLower (s : String) : String :=
  ⟨s.toList.map Char.toLower⟩

/-- Python `s.rstrip('/')`. -/
def rstripSlashes (s : String) : String :=
  ⟨(s.toList.reverse.dropWhile (· == '/')).reverse⟩

/-- Python `os.path.basename`: the part after the last slash. -/
def basename (p : String) : String :=
  ⟨(p.toList.reverse.takeWhile (· != '/')).reverse⟩

/-- Python `os.path.dirname` (posix semantics, including the
all-slashes and empty-head corner cases). -/
def dirname (p : String) : String :=
  let headL := (p.toList.reverse.dropWhile (· != '/')).reverse
  if headL.isEmpty || headL.all (· == '/') then ⟨headL⟩
  else ⟨(headL.reverse.dropWhile (· == '/')).reverse⟩

/-- The extension component of Python `os.path.splitext`, dot included;
a basename consisting only of leading dots has no extension. -/
def splitextExt (p : String) : String :=
  let base := (basename p).toList
  let rest := base.dropWhile (· == '.')
  let afterDot := rest.reverse.takeWhile (· != '.')
  if afterDot.length == rest.length then ""
  else ⟨'.' :: afterDot.reverse⟩

/-- The root component of Python `os.path.splitext`. -/
def splitextRoot (p : String) : String :=
  let e := splitextExt p
  ⟨p.toList.take (p.toList.length - e.toList.length)⟩

/-- Python `os.path.join(a, b)` for the two-argument posix case. -/
def pathJoin (a b : String) : String :=
  if strStartsWith b "/" then b
  else if a == "" then b
  else if strEndsWith a "/" then a ++ b
  else a ++ "/" ++ b

/-- Python `any(s.endswith(x) for x in sufs)`. -/
def endsWithAny (s : String) (sufs : List String) : Bool :=
  sufs.any (strEndsWith s)

/-! ### PathResolver: `clean_macos_path` and `validate_files_for_archiving` -/

/-- `clean_macos_path` (source lines 318-326): strip whitespace and quotes,
then additionally unescape backslash-escaped space, parentheses and ampersand.
Returns `(cleaned, unescaped)`. -/
def clean_macos_path (path : String) : String × String :=
  let cleaned := stripChars ['"', Char.ofNat 39] (pyStrip path)
  let unescaped :=
    pyReplace (pyReplace (pyReplace (pyReplace cleaned "\\ " " ") "\\(" "(") "\\)" ")") "\\&" "&"
  (cleaned, unescaped)

/-- The per-candidate step of `validate_files_for_archiving`: resolve the
candidate (original form first, then unescaped), take its absolute path, and
drop it when it is under a denied system location. `ex` models
`os.path.exists` and `ab` models `os.path.abspath`. -/
def validate_one (ex : String → Bool) (ab : String → String) (file_path : String) :
    Option String :=
  if file_path == "" || pyStrip file_path == "" then none
  else
    let p := clean_macos_path file_path
    let absPath : Option String :=
      if ex p.1 then some (ab p.1)
      else if ex p.2 then some (ab p.2)
      else none
    match absPath with
    | none => none
    | some a =>
      if strStartsWith a "/System" || strStartsWith a "/usr/bin" || strStartsWith a "/private" then
        none
      else some a

/-- `validate_files_for_archiving` (source lines 518-544): validate and filter
candidate paths, resolving drag-and-drop escaping and skipping nonexistent
entries and sensitive system locations. -/
def validate_files_for_archiving (ex : String → Bool) (ab : String → String) :
    List String → List String
  | [] => []
  | file_path :: rest =>
    let tail := validate_files_for_archiving ex ab rest
    if file_path == "" || pyStrip file_path == "" then tail
    else
      let p := clean_macos_path file_path
      let absPath : Option String :=
        if ex p.1 then some (ab p.1)
        else if ex p.2 then some (ab p.2)
        else none
      match absPath with
      | none => tail
      | some a =>
        if strStartsWith a "/System" || strStartsWith a "/usr/bin" || strStartsWith a "/private" then
          tail
        else a :: tail

/-! ### ResourceEstimator: `check_system_resources_before_operation` -/

/-- The reclaimable-page counts parsed from `vm_stat` output (source lines
186-205): free, inactive and speculative pages, plus the page size in bytes. -/
structure VmStatInfo where
  freePages : ℕ
  inactivePages : ℕ
  speculativePages : ℕ
  pageSize : ℕ
deriving DecidableEq

/-- The CPU probe (source lines 224-227): 1-minute load average and
`os.cpu_count()` (`0` stands for the falsy `None`, mapped to 1 as in
`os.cpu_count() or 1`). -/
structure CpuInfo where
  loadAvg : ℚ
  cpuCount : ℕ
deriving DecidableEq

/-- The system state observed by the pre-operation check; `none` in a field
models the corresponding probe raising (the `except` paths). -/
structure SystemProbe where
  vm : Option VmStatInfo
  cpu : Option CpuInfo
deriving DecidableEq

/-- The per-level memory estimate table in GB (source line 209), with the
dictionary's default of 3 for out-of-range levels. -/
def memory_multiplier (compression_level : ℕ) : ℚ :=
  match compression_level with
  | 0 => 1/10
  | 1 => 1/5
  | 2 => 1/2
  | 3 => 1
  | 4 => 2
  | 5 => 3
  | 6 => 5
  | 7 => 8
  | 8 => 12
  | 9 => 16
  | _ => 3

/-- The warnings the pre-operation check can collect. -/
inductive ResourceWarn
  | memNeeded
  | lowMem
  | extremeLevel
  | highCpu
deriving DecidableEq

/-- The warning list built by `check_system_resources_before_operation`
(source lines 182-232): memory warnings from the `vm_stat` probe (or the
elevated-level warning when that probe fails and the level is at least 8),
then the high-CPU warning. -/
def resource_warnings (compression_level : ℕ) (sys : SystemProbe) : List ResourceWarn :=
  (match sys.vm with
   | some vm =>
     let available_memory_gb : ℚ :=
       ((vm.freePages + vm.inactivePages + vm.speculativePages) * vm.pageSize : ℚ) / 1024 ^ 3
     let estimated_memory_gb := memory_multiplier compression_level
     (if estimated_memory_gb > available_memory_gb then [ResourceWarn.memNeeded] else [])
       ++ (if available_memory_gb < 2 then [ResourceWarn.lowMem] else [])
   | none => if compression_level ≥ 8 then [ResourceWarn.extremeLevel] else [])
  ++ (match sys.cpu with
      | some c =>
        let cpu_count : ℕ := if c.cpuCount == 0 then 1 else c.cpuCount
        let cpu_usage_percent := c.loadAvg / cpu_count * 100
        if cpu_usage_percent > 70 then [ResourceWarn.highCpu] else []
      | none => [])

/-- `check_system_resources_before_operation` (source lines 180-253).
`answer` is what the user would type at the confirmation prompt. The result
is `(prompted, proceed)`: whether an explicit confirmation was demanded, and
whether the operation goes ahead. With no warnings the function returns
`True` with no prompt; with warnings it prompts, accepting `y` (and `yes`
only below level 8). `total_size` is accepted and ignored, as in the source. -/
def check_system_resources_before_operation (compression_level : ℕ) (total_size : ℕ)
    (sys : SystemProbe) (answer : String) : Bool × Bool :=
  let _ := total_size
  let warnings := resource_warnings compression_level sys
  if !warnings.isEmpty then
    if compression_level ≥ 8 then (true, pyLower answer == "y")
    else (true, pyLower answer == "y" || pyLower answer == "yes")
  else (false, true)

/-! ### ExtractionCoordinator: per-batch conflict policy and job loop -/

/-- The overwrite flag chosen once per batch when the destination already
holds entries (source lines 1260-1273): choice `2` is overwrite-all, `3` is
ask-per-file, anything else (the default) is skip-existing; choice `4`
cancels before this mapping applies. -/
def conflict_flag (resume_choice : String) : Option String :=
  if resume_choice == "2" then some "-aoa"
  else if resume_choice == "3" then some "-ao"
  else some "-aos"

/-- The extraction command for one archive (source lines 1313-1322): the
`x` verb, the `-o` destination, an unconditional `-y`, the batch's overwrite
flag when one was chosen, and the selected member names for a
single-archive batch. -/
def extract_cmd (seven_zip_path archive_path current_dest : String)
    (overwrite_flag : Option String) (selected_files : List String)
    (num_archives : ℕ) : List String :=
  [seven_zip_path, "x", archive_path, "-o" ++ current_dest, "-y"]
    ++ (match overwrite_flag with | some f => [f] | none => [])
    ++ (if !selected_files.isEmpty && num_archives == 1 then selected_files else [])

/-- The environment one extraction job runs against: whether its per-job
directory creation succeeds (consulted only in separate mode for a
multi-archive batch) with the error text otherwise, and the archiver run's
result — an exit code, or an exception message. -/
structure JobEnv where
  mkdirOk : Bool
  mkdirErr : String
  runResult : Except String Int

/-- The outcome the loop body records for one job, mirroring source lines
1300-1338: a directory-creation failure or a nonzero exit or an exception is
recorded with the archive's basename and a reason; otherwise the job counts
as a success (`none`). -/
def job_fail_record (separate_multi : Bool) (j : String × JobEnv) :
    Option (String × String) :=
  if separate_multi && !j.2.mkdirOk then some (basename j.1, j.2.mkdirErr)
  else
    match j.2.runResult with
    | .ok code =>
      if code != 0 then some (basename j.1, "error code " ++ toString code) else none
    | .error e => some (basename j.1, e)

/-- A job succeeds when the loop records no failure for it. -/
def job_succeeds (separate_multi : Bool) (j : String × JobEnv) : Bool :=
  (job_fail_record separate_multi j).isNone

/-- The extraction loop (source lines 1292-1338) over the remaining jobs,
carrying `(success_count, failed_archives)`. Each job is processed in input
order and a failure only appends to the failure list; the loop always
continues with the rest. -/
def extract_jobs_go (separate_multi : Bool) :
    ℕ × List (String × String) → List (String × JobEnv) → ℕ × List (String × String)
  | acc, [] => acc
  | (sc, fl), (path, env) :: rest =>
    let name := basename path
    if separate_multi && !env.mkdirOk then
      extract_jobs_go separate_multi (sc, fl ++ [(name, env.mkdirErr)]) rest
    else
      match env.runResult with
      | .ok code =>
        if code != 0 then
          extract_jobs_go separate_multi (sc, fl ++ [(name, "error code " ++ toString code)]) rest
        else
          extract_jobs_go separate_multi (sc + 1, fl) rest
      | .error e => extract_jobs_go separate_multi (sc, fl ++ [(name, e)]) rest

/-- The whole batch run: start from zero successes and no failures. -/
def extract_jobs (separate_multi : Bool) (jobs : List (String × JobEnv)) :
    ℕ × List (String × String) :=
  extract_jobs_go separate_multi (0, []) jobs

/-- The terminal aggregate of a batch (source lines 1345-1354). -/
inductive ExtractionAggregate
  | allSucceeded
  | partialSuccess
  | allFailed
deriving DecidableEq

/-- The summary branch of `extract_archive`: all jobs succeeded, some did,
or none did. -/
def extraction_aggregate (num_archives success_count : ℕ) : ExtractionAggregate :=
  if success_count == num_archives then ExtractionAggregate.allSucceeded
  else if success_count > 0 then ExtractionAggregate.partialSuccess
  else ExtractionAggregate.allFailed

/-! ### ArchivePlanner: format handling, smart naming and the create command -/

/-- The destination format tag used by `create_archive` (source line 851):
`os.path.splitext(output_path)[1].lower().lstrip('.')`. -/
def output_ext (output_path : String) : String :=
  ⟨(pyLower (splitextExt output_path)).toList.dropWhile (· == '.')⟩

/-- The password decision of `create_archive` (source lines 854-859): for a
`tar` destination the password is dropped and a warning surfaced (second
component `true`); otherwise the user's optional password is kept. -/
def resolve_password (output_path : String) (user_password : Option String) :
    Option String × Bool :=
  if output_ext output_path == "tar" then (none, true) else (user_password, false)

/-- The archive-creation command (source lines 956-980): the `a` verb, the
compression flag except for `tar` destinations, the split and overwrite flags
when chosen, the password flag with header encryption only for `7z`, then the
destination and the validated sources. -/
def create_cmd (seven_zip_path output_path : String) (compression_level : ℕ)
    (split_size : Option String) (overwrite_existing : Bool)
    (password : Option String) (validated_files : List String) : List String :=
  [seven_zip_path, "a"]
    ++ (if output_ext output_path != "tar" then ["-mx" ++ toString compression_level] else [])
    ++ (match split_size with | some s => ["-v" ++ s] | none => [])
    ++ (if overwrite_existing then ["-y"] else [])
    ++ (match password with
        | some pw =>
          ["-p" ++ pw] ++ (if output_ext output_path == "7z" then ["-mhe=on"] else [])
        | none => [])
    ++ [output_path] ++ validated_files

/-- `generate_smart_archive_name` (source lines 631-673). `isdir` models
`os.path.isdir` and `today` the formatted current date. A single source is
named after itself; multiple sources are classified by keyword/extension
heuristics, falling back to the sources' common parent directory and finally
to `Mixed_Files`, with the date appended. -/
def generate_smart_archive_name (isdir : String → Bool) (today : String)
    (source_files : List String) : String :=
  match source_files with
  | [source] =>
    let base_name := basename (rstripSlashes source)
    if isdir source then base_name ++ ".7z"
    else splitextRoot base_name ++ "_archive.7z"
  | _ =>
    let file_names := source_files.map (fun f => basename (rstripSlashes f))
    let lowered := file_names.map pyLower
    let base_name :=
      if lowered.any (fun n => containsSub n "photo" || containsSub n "img"
          || endsWithAny n [".jpg", ".png", ".gif", ".heic"]) then "Photos"
      else if lowered.any (fun n => containsSub n "doc"
          || endsWithAny n [".pdf", ".txt", ".docx", ".pages"]) then "Documents"
      else if lowered.any (fun n => containsSub n "video" || containsSub n "movie"
          || endsWithAny n [".mp4", ".mov", ".avi"]) then "Videos"
      else if lowered.any (fun n => containsSub n "music" || containsSub n "audio"
          || endsWithAny n [".mp3", ".m4a", ".wav"]) then "Audio"
      else if lowered.any (fun n => containsSub n "project" || containsSub n "src"
          || containsSub n "code") then "Project"
      else
        let common_parent := dirname (source_files.headD "")
        if common_parent != ""
            && source_files.all (fun f => strStartsWith f common_parent) then
          let b := basename common_parent
          if b == "" then "Files" else b
        else "Mixed_Files"
    base_name ++ "_" ++ today ++ ".7z"

/-! ### PreferenceStore: load/save over the persisted JSON record -/

/-- JSON-ish values as stored in the preferences record. -/
inductive JVal
  | s (v : String)
  | n (v : Int)
  | b (v : Bool)
  | arr (vs : List String)

/-- First value for a key in an association-list record, Python `d[k]`. -/
def dictGet (d : List (String × JVal)) (k : String) : Option JVal :=
  match d with
  | [] => none
  | kv :: t => if kv.1 == k then some kv.2 else dictGet t k

/-- Python `base.update(upd)` on dict records: keys already in `base` keep
their position with the updated value; keys only in `upd` are appended in
`upd`'s order. -/
def dictUpdate (base upd : List (String × JVal)) : List (String × JVal) :=
  base.map (fun kv =>
    (kv.1, match dictGet upd kv.1 with
           | some v => v
           | none => kv.2))
  ++ upd.filter (fun kv => (dictGet base kv.1).isNone)

/-- The hard-coded default record (source lines 73-81); `desktop` stands for
`os.path.expanduser("~/Desktop")`. -/
def default_preferences (desktop : String) : List (String × JVal) :=
  [("compression_preset", JVal.s "balanced"),
   ("custom_compression_level", JVal.n 5),
   ("default_output_directory", JVal.s desktop),
   ("auto_open_after_extract", JVal.b false),
   ("exclude_patterns", JVal.arr [".DS_Store", ".Thumbs.db", "Thumbs.db"]),
   ("remember_last_directory", JVal.b true),
   ("last_output_directory", JVal.s desktop)]

/-- `load_preferences` (source lines 71-92): merge the persisted record over
the defaults; an absent or unparsable file (`none`) yields the defaults with
a non-fatal diagnostic. -/
def load_preferences (desktop : String)
    (persisted : Option (List (String × JVal))) : List (String × JVal) :=
  match persisted with
  | none => default_preferences desktop
  | some loaded_prefs => dictUpdate (default_preferences desktop) loaded_prefs

/-- `save_preferences` (source lines 94-100) writes the full current record;
the persisted content is the in-memory record itself. -/
def save_preferences (preferences : List (String × JVal)) : List (String × JVal) :=
  preferences

/-! ### Crash behavior of the preference write -/

/-- File contents by path. -/
def FsState : Type := String → Option String

/-- The filesystem steps a save performs. -/
inductive FsOp
  | openTruncate (path : String)
  | writeContent (path : String) (content : String)

/-- Effect of one step: `open(path, 'w')` truncates the file to empty;
the subsequent dump writes the serialized record. -/
def applyFsOp (st : FsState) : FsOp → FsState
  | FsOp.openTruncate p => fun q => if q == p then some "" else st q
  | FsOp.writeContent p c => fun q => if q == p then some c else st q

/-- Run a list of filesystem steps. -/
def runFsOps (st : FsState) (ops : List FsOp) : FsState :=
  ops.foldl applyFsOp st

/-- The steps of `save_preferences` (source lines 94-100): it opens the
config file with truncating mode `'w'` and then dumps the record in place —
no temporary file, no rename. -/
def save_preferences_ops (config_file data : String) : List FsOp :=
  [FsOp.openTruncate config_file, FsOp.writeContent config_file data]

/-- The filesystem after the save is interrupted once `k` of its steps have
completed. -/
def crashDuringSave (st : FsState) (config_file data : String) (k : ℕ) : FsState :=
  runFsOps st ((save_preferences_ops config_file data).take k)

/-! ### The create-archive pipeline from preferences to command -/

/-- The in-memory preference record with its hard-coded keys (source lines
73-81), used by the interactive create flow. -/
structure Preferences where
  compression_preset : String
  custom_compression_level : ℕ
  default_output_directory : String
  auto_open_after_extract : Bool
  exclude_patterns : List String
  remember_last_directory : Bool
  last_output_directory : String

/-- `_confirm_level_9` (source lines 751-764): an explicit `y` keeps level 9,
anything else falls back to level 5. -/
def confirm_level_9 (answer : String) : ℕ :=
  if pyLower answer == "y" then 9 else 5

/-- `get_compression_level` (source lines 707-749), with the interactive
loop replaced by the first valid answers: a saved preset is used directly
(level 9 demanding its extra confirmation); otherwise the menu choice
decides, `4` reading a custom level (again confirming 9). -/
def get_compression_level (prefs : Preferences) (menu_choice : String)
    (custom_level : ℕ) (confirm9_answer : String) : ℕ :=
  if prefs.compression_preset == "fast" then 1
  else if prefs.compression_preset == "balanced" then 5
  else if prefs.compression_preset == "maximum" then confirm_level_9 confirm9_answer
  else if prefs.compression_preset == "custom" then
    if prefs.custom_compression_level == 9 then confirm_level_9 confirm9_answer
    else prefs.custom_compression_level
  else
    if menu_choice == "" || menu_choice == "2" then 5
    else if menu_choice == "1" then 1
    else if menu_choice == "3" then confirm_level_9 confirm9_answer
    else
      if custom_level == 9 then confirm_level_9 confirm9_answer else custom_level

/-- The filesystem facts `get_output_path` consults: `os.path.isdir`,
`os.path.exists`, whether `os.makedirs` succeeds, and the current date for
smart naming. -/
structure OutputPathEnv where
  isdir : String → Bool
  fsExists : String → Bool
  mkdirOk : String → Bool
  today : String

/-- `get_output_path` (source lines 432-516), with the prompts replaced by
the user's answers. Preferences supply the default directory (the remembered
last directory when that option is on); an empty answer takes the smart
suggestion; a directory answer gets a filename synthesized from the sources;
a missing default extension is appended; an uncreatable parent directory
falls back to the default directory. The remember-last-directory write-back
(source lines 498-502) mutates preferences only and does not affect the
returned path. -/
def get_output_path (prefs : Preferences) (env : OutputPathEnv)
    (source_files : List String) (user_path filename_answer : String) : String :=
  let smart_name :=
    if source_files.isEmpty then "archive.7z"
    else generate_smart_archive_name env.isdir env.today source_files
  let default_dir :=
    if prefs.remember_last_directory then prefs.last_output_directory
    else prefs.default_output_directory
  let default_full_path := pathJoin default_dir smart_name
  let path0 := pyStrip user_path
  if path0 == "" then default_full_path
  else
    let path1 := stripChars ['"', Char.ofNat 39] path0
    let path2 := (clean_macos_path path1).2
    let path3 :=
      if env.isdir path2 || strEndsWith path2 "/" then
        let base_dir := rstripSlashes path2
        if source_files.length == 1 then
          pathJoin base_dir (splitextRoot (basename (source_files.headD "")) ++ ".7z")
        else
          let fn0 := pyStrip filename_answer
          let fn1 :=
            if fn0 == "" then
              splitextRoot (basename (source_files.headD "")) ++ "_archive.7z"
            else fn0
          let fn2 :=
            if !endsWithAny fn1 [".7z", ".zip", ".tar", ".gz"] then fn1 ++ ".7z" else fn1
          pathJoin base_dir fn2
      else
        if !endsWithAny path2 [".7z", ".zip", ".tar", ".gz"] then path2 ++ ".7z" else path2
    let parent_dir := dirname path3
    if parent_dir != "" && !env.fsExists parent_dir && !env.mkdirOk parent_dir then
      pathJoin default_dir (basename path3)
    else path3

/-- The split-size decision (source lines 886-912): offered only above 10 GB
of planned input; choices map to the presets, `4` to the custom size typed
by the user. -/
def resolve_split_size (total_size : ℕ) (split_choice custom_size : String) :
    Option String :=
  if total_size > 10 * 1024 * 1024 * 1024 then
    if split_choice == "" || split_choice == "1" then none
    else if split_choice == "2" then some "4000m"
    else if split_choice == "3" then some "2000m"
    else if split_choice == "4" && pyStrip custom_size != "" then some (pyStrip custom_size)
    else none
  else none

/-- The answers the user gives during one create-archive session. -/
structure CreateSession where
  user_output_path : String
  filename_answer : String
  overwrite_choice : String
  user_password : Option String
  level_menu_choice : String
  custom_level_answer : ℕ
  confirm9_answer : String
  split_choice : String
  custom_split : String

/-- The create flow (source lines 800-980) from preferences, session answers
and validated files down to the constructed archiver argument list: resolve
the output path, the overwrite decision for an existing destination, the
format-constrained password, the compression level and the split size, then
build the command. -/
def create_archive_cmd (seven_zip_path : String) (prefs : Preferences)
    (env : OutputPathEnv) (validated_files : List String) (sess : CreateSession)
    (total_size : ℕ) : List String :=
  let output_path :=
    get_output_path prefs env validated_files sess.user_output_path sess.filename_answer
  let overwrite_existing := env.fsExists output_path && sess.overwrite_choice == "1"
  let password := (resolve_password output_path sess.user_password).1
  let compression_level :=
    get_compression_level prefs sess.level_menu_choice sess.custom_level_answer
      sess.confirm9_answer
  let split_size := resolve_split_size total_size sess.split_choice sess.custom_split
  create_cmd seven_zip_path output_path compression_level split_size overwrite_existing
    password validated_files

/-! ### Helper lemmas -/

/-- Filtering twice with the same predicate filters once. -/
theorem filter_self_idem {α : Type} (q : α → Bool) (l : List α) :
    List.filter q (List.filter q l) = List.filter q l := by
  induction l with
  | nil => rfl
  | cons a t ih =>
    cases h : q a <;> simp [List.filter_cons, h, ih]

/-- The validation loop is the per-candidate resolution mapped over the
input, dropped where resolution fails: order is preserved and repeated
candidates yield repeated entries. -/
theorem validate_files_eq_filterMap (ex : String → Bool) (ab : String → String)
    (l : List String) :
    validate_files_for_archiving ex ab l = l.filterMap (validate_one ex ab) := by
  induction l with
  | nil => rfl
  | cons a t ih =>
    simp only [validate_files_for_archiving, validate_one, List.filterMap_cons]
    repeat' split <;> first | rfl | exact ih | exact absurd rfl (by assumption) | (try simp_all)

/-- One step of the extraction loop records exactly `job_fail_record` for the
head job: a failure appends it, a success bumps the counter. -/
theorem extract_jobs_go_cons (sm : Bool) (sc : ℕ) (fl : List (String × String))
    (path : String) (env : JobEnv) (rest : List (String × JobEnv)) :
    extract_jobs_go sm (sc, fl) ((path, env) :: rest)
      = match job_fail_record sm (path, env) with
        | none => extract_jobs_go sm (sc + 1, fl) rest
        | some r => extract_jobs_go sm (sc, fl ++ [r]) rest := by
  simp only [extract_jobs_go, job_fail_record]
  repeat' split <;> first | rfl | exact absurd rfl (by assumption) | (try simp_all)

/-- The extraction loop's accumulator invariant: successes are counted and
failures collected in input order, one outcome per job. -/
theorem extract_jobs_go_spec (sm : Bool) (sc : ℕ) (fl : List (String × String))
    (jobs : List (String × JobEnv)) :
    extract_jobs_go sm (sc, fl) jobs
      = (sc + (jobs.filter (job_succeeds sm)).length,
         fl ++ jobs.filterMap (job_fail_record sm)) := by
  induction jobs generalizing sc fl with
  | nil => simp [extract_jobs_go]
  | cons j rest ih =>
    obtain ⟨path, env⟩ := j
    rw [extract_jobs_go_cons]
    cases hr : job_fail_record sm (path, env) with
    | none =>
      simp only [ih, List.filter_cons, List.filterMap_cons, job_succeeds, hr,
        Option.isNone_none, if_pos, List.length_cons, Prod.mk.injEq]
      exact ⟨by omega, trivial⟩
    | some r =>
      simp only [ih, List.filter_cons, List.filterMap_cons, job_succeeds, hr,
        Option.isNone_some, Bool.false_eq_true, if_neg, List.append_assoc,
        List.singleton_append, Prod.mk.injEq, not_false_eq_true]

/-! ### The claims -/

/-- C1, counterexample: at compression level 9 with 0 planned bytes, a system
state with ample reclaimable memory (32 GB available, well above the 16 GB
level-9 estimate) and low CPU load produces no warning, and the pre-operation
resource check returns proceed with no confirmation prompt at all — refuting
the claim that a level ≥ 8 check never silently proceeds. -/
theorem C1_counterexample :
    check_system_resources_before_operation 9 0
      ⟨some ⟨2097152, 0, 0, 16384⟩, some ⟨1, 8⟩⟩ "n" = (false, true) := by
  have h : resource_warnings 9 ⟨some ⟨2097152, 0, 0, 16384⟩, some ⟨1, 8⟩⟩ = [] := by
    norm_num [resource_warnings, memory_multiplier]
  simp [check_system_resources_before_operation, h]

/-- C1, amended: the pre-operation check demands an explicit confirmation
exactly when some resource warning fired; at level ≥ 8 a confirmation is
guaranteed only on the probe-failure path (where the elevated-level warning
is always issued), not for every system state. -/
theorem C1_amended (compression_level total_size : ℕ) (sys : SystemProbe)
    (answer : String) :
    ((check_system_resources_before_operation compression_level total_size sys answer).1
       = !(resource_warnings compression_level sys).isEmpty)
    ∧ (sys.vm = none → 8 ≤ compression_level →
        (check_system_resources_before_operation compression_level total_size sys answer).1
          = true) := by
  constructor
  · cases hb : (resource_warnings compression_level sys).isEmpty
    all_goals simp [check_system_resources_before_operation, hb]
    all_goals split <;> rfl
  · intro hvm hlv
    have hw : (resource_warnings compression_level sys).isEmpty = false := by
      unfold resource_warnings
      rw [hvm]
      simp [hlv]
    simp [check_system_resources_before_operation, hw]
    split <;> rfl

/-- C1, witness: at level 9 with both probes failing, the check prompts. -/
theorem C1_amended_witness :
    ((check_system_resources_before_operation 9 0 ⟨none, none⟩ "n").1
       = !(resource_warnings 9 ⟨none, none⟩).isEmpty)
    ∧ (check_system_resources_before_operation 9 0 ⟨none, none⟩ "n").1 = true :=
  ⟨(C1_amended 9 0 ⟨none, none⟩ "n").1,
   (C1_amended 9 0 ⟨none, none⟩ "n").2 rfl (by decide)⟩

/-- C2, counterexample: a repeated existing candidate (`/a` twice) survives
validation twice — the validated list contains duplicate absolute paths,
refuting the no-duplicates claim. -/
theorem C2_counterexample :
    validate_files_for_archiving (fun s => s == "/a") (fun s => s) ["/a", "/a"]
        = ["/a", "/a"]
    ∧ ¬ List.Nodup (validate_files_for_archiving (fun s => s == "/a") (fun s => s)
        ["/a", "/a"]) :=
  ⟨by decide, by decide⟩

/-- C2, amended: the validated file set is the per-candidate resolution of
the input in input order — each candidate that resolves to an existing,
non-denied absolute path contributes one entry, so repeated candidates yield
repeated entries and duplicates are not removed. -/
theorem C2_amended (ex : String → Bool) (ab : String → String) (l : List String) :
    validate_files_for_archiving ex ab l = l.filterMap (validate_one ex ab) :=
  validate_files_eq_filterMap ex ab l

/-- C3: when the per-batch conflict policy is ask-per-file (choice `3`), the
constructed extraction command still contains the assume-yes flag `-y`
(appended unconditionally) alongside the bare `-ao` flag, so the archiver's
per-file prompts are suppressed rather than delegated. -/
theorem C3_theorem :
    extract_cmd "7zz" "/a.7z" "/dest" (conflict_flag "3") [] 1
        = ["7zz", "x", "/a.7z", "-o/dest", "-y", "-ao"]
    ∧ "-y" ∈ extract_cmd "7zz" "/a.7z" "/dest" (conflict_flag "3") [] 1 :=
  ⟨by decide, by decide⟩

/-- C4, counterexample: the destination `/tmp/.tar` ends in `.tar`, but its
basename is the dotfile `.tar`, whose `splitext` extension is empty; the
password branch therefore keeps the user's password, no warning is surfaced,
and the command carries a `-p` flag — refuting the claim for this
`.tar`-ending destination. -/
theorem C4_counterexample :
    strEndsWith "/tmp/.tar" ".tar" = true
    ∧ resolve_password "/tmp/.tar" (some "pw") = (some "pw", false)
    ∧ "-ppw" ∈ create_cmd "7zz" "/tmp/.tar" 5 none false
        (resolve_password "/tmp/.tar" (some "pw")).1 ["/Users/u/file.txt"] :=
  ⟨by decide, by decide, by decide⟩

/-- C4, amended: for every destination whose `splitext` extension is `.tar`
(a non-dot character precedes the final `.tar` in the basename), the password
is dropped with a surfaced warning and the operation continues: the command
carries no compression, password or header-encryption flag — only the verb,
the optional split and overwrite flags, the destination and the sources. -/
theorem C4_amended (seven_zip_path output_path : String) (user_password : Option String)
    (compression_level : ℕ) (split_size : Option String) (overwrite_existing : Bool)
    (validated_files : List String) (h : output_ext output_path = "tar") :
    resolve_password output_path user_password = (none, true)
    ∧ create_cmd seven_zip_path output_path compression_level split_size
        overwrite_existing (resolve_password output_path user_password).1 validated_files
      = [seven_zip_path, "a"]
        ++ (match split_size with | some s => ["-v" ++ s] | none => [])
        ++ (if overwrite_existing then ["-y"] else [])
        ++ [output_path] ++ validated_files := by
  have hb : (output_ext output_path == "tar") = true := by simp [h]
  constructor
  · simp [resolve_password, hb]
  · simp [create_cmd, resolve_password, hb, h]

/-- C4, witness: a destination `b.tar` with a requested password yields a
passwordless command and a warning. -/
theorem C4_amended_witness :
    resolve_password "b.tar" (some "pw") = (none, true)
    ∧ create_cmd "7zz" "b.tar" 5 none false (resolve_password "b.tar" (some "pw")).1 ["/f"]
      = ["7zz", "a", "b.tar", "/f"] :=
  C4_amended "7zz" "b.tar" (some "pw") 5 none false ["/f"] (by decide)

/-- The three-job batch of the claim: jobs 1 and 3 exit 0, job 2 exits 2. -/
def batch3 : List (String × JobEnv) :=
  [("/archives/a.7z", ⟨true, "", Except.ok 0⟩),
   ("/archives/b.7z", ⟨true, "", Except.ok 2⟩),
   ("/archives/c.7z", ⟨true, "", Except.ok 0⟩)]

/-- C5: extraction jobs run in input order and independently — the batch
result counts exactly the successful jobs and collects the failures, one
outcome per job, in input order; in particular the three-job batch where only
job 2 fails attempts all three jobs, succeeds on jobs 1 and 3, records job 2
with its exit code, and aggregates to partial success. -/
theorem C5_theorem :
    (∀ (separate_multi : Bool) (jobs : List (String × JobEnv)),
       extract_jobs separate_multi jobs
         = ((jobs.filter (job_succeeds separate_multi)).length,
            jobs.filterMap (job_fail_record separate_multi)))
    ∧ extract_jobs true batch3 = (2, [("b.7z", "error code 2")])
    ∧ (batch3.filter (job_succeeds true)).map Prod.fst = ["/archives/a.7z", "/archives/c.7z"]
    ∧ extraction_aggregate batch3.length (extract_jobs true batch3).1
        = ExtractionAggregate.partialSuccess := by
  refine ⟨fun sm jobs => ?_, by decide, by decide, by decide⟩
  simpa [extract_jobs] using extract_jobs_go_spec sm 0 [] jobs

/-- C6: every path in the validated file set avoids the denied system
locations — no entry starts with `/System`, `/usr/bin` or `/private`, for any
filesystem and any inputs. -/
theorem C6_theorem (ex : String → Bool) (ab : String → String) (l : List String)
    (p : String) (hp : p ∈ validate_files_for_archiving ex ab l) :
    strStartsWith p "/System" = false ∧ strStartsWith p "/usr/bin" = false
      ∧ strStartsWith p "/private" = false := by
  rw [validate_files_eq_filterMap] at hp
  rcases List.mem_filterMap.mp hp with ⟨a, _, hv⟩
  simp only [validate_one] at hv
  split at hv
  · exact absurd hv (by simp)
  · split at hv
    · exact absurd hv (by simp)
    · split at hv
      · exact absurd hv (by simp)
      · rename_i hden
        obtain rfl : _ = p := Option.some.inj hv
        simpa [Bool.or_eq_true, and_assoc] using hden

/-- C6, witness: `/a` is validated and avoids the denied locations. -/
theorem C6_witness :
    "/a" ∈ validate_files_for_archiving (fun s => s == "/a") (fun s => s) ["/a"]
    ∧ (strStartsWith "/a" "/System" = false ∧ strStartsWith "/a" "/usr/bin" = false
        ∧ strStartsWith "/a" "/private" = false) :=
  ⟨by decide, C6_theorem (fun s => s == "/a") (fun s => s) ["/a"] "/a" (by decide)⟩

/-- C7, counterexample: two unclassifiable sources sharing the parent
directory `/data` are named after that parent (`data`), which is outside the
fixed category set — refuting the claim that multi-source names always draw
their base from the category set. -/
theorem C7_counterexample :
    generate_smart_archive_name (fun _ => false) "2026-10-12"
        ["/data/alpha.bin", "/data/beta.bin"] = "data_2026-10-12.7z"
    ∧ ∀ c ∈ (["Photos", "Documents", "Videos", "Audio", "Project", "Mixed_Files"] :
        List String),
        "data_2026-10-12.7z" ≠ c ++ "_" ++ "2026-10-12" ++ ".7z" :=
  ⟨by decide, by decide⟩

/-- C7, amended: a multi-source smart name is a base followed by the date and
the `.7z` extension, where the base is drawn from the fixed categories
(`Photos`, `Documents`, `Videos`, `Audio`, `Project`, `Mixed_Files`), the
auxiliary `Files`, or the basename of the sources' common parent directory. -/
theorem C7_amended (isdir : String → Bool) (today : String) (source_files : List String)
    (h : 2 ≤ source_files.length) :
    ∃ base,
      generate_smart_archive_name isdir today source_files = base ++ "_" ++ today ++ ".7z"
      ∧ (base ∈ ["Photos", "Documents", "Videos", "Audio", "Project", "Mixed_Files", "Files"]
         ∨ base = basename (dirname (source_files.headD ""))) := by
  match source_files, h with
  | a :: b :: t, _ =>
    simp only [generate_smart_archive_name]
    repeat' split
    all_goals first
      | exact ⟨_, rfl, Or.inr rfl⟩
      | exact ⟨_, rfl, Or.inl (by simp)⟩

/-- C7, witness: the `/data` pair's name has the common-parent base shape. -/
theorem C7_amended_witness :
    ∃ base,
      generate_smart_archive_name (fun _ => false) "2026-10-12"
          ["/data/alpha.bin", "/data/beta.bin"] = base ++ "_" ++ "2026-10-12" ++ ".7z"
      ∧ (base ∈ ["Photos", "Documents", "Videos", "Audio", "Project", "Mixed_Files", "Files"]
         ∨ base = basename (dirname ((["/data/alpha.bin", "/data/beta.bin"] :
              List String).headD ""))) :=
  C7_amended (fun _ => false) "2026-10-12" ["/data/alpha.bin", "/data/beta.bin"] (by decide)

/-- C8: the load/save round trip is the identity on the loaded record — for
every persisted state (absent, malformed, partial or full), saving the record
produced by load and loading again yields a field-for-field identical record. -/
theorem C8_theorem (desktop : String) (persisted : Option (List (String × JVal))) :
    load_preferences desktop (some (save_preferences (load_preferences desktop persisted)))
      = load_preferences desktop persisted := by
  cases persisted with
  | none => rfl
  | some p =>
    show dictUpdate (default_preferences desktop)
        (dictUpdate (default_preferences desktop) p)
      = dictUpdate (default_preferences desktop) p
    calc dictUpdate (default_preferences desktop) (dictUpdate (default_preferences desktop) p)
        = (default_preferences desktop).map
            (fun kv => (kv.1, match dictGet p kv.1 with | some v => v | none => kv.2))
          ++ List.filter (fun kv => (dictGet (default_preferences desktop) kv.1).isNone)
               (List.filter (fun kv => (dictGet (default_preferences desktop) kv.1).isNone)
                 p) := rfl
      _ = (default_preferences desktop).map
            (fun kv => (kv.1, match dictGet p kv.1 with | some v => v | none => kv.2))
          ++ List.filter (fun kv => (dictGet (default_preferences desktop) kv.1).isNone)
               p := by rw [filter_self_idem]
      _ = dictUpdate (default_preferences desktop) p := rfl

/-- A filesystem whose only file is the previously saved preference record. -/
def fsWithPrefsFile : FsState :=
  fun q => if q == "/Users/u/.7zip_cli_preferences.json" then some "oldrecord" else none

/-- C9, counterexample: the save writes the preferences file in place, so a
crash after the truncating open and before the dump leaves an empty file —
neither the previous valid record nor the new one — refuting crash-atomicity. -/
theorem C9_counterexample :
    fsWithPrefsFile "/Users/u/.7zip_cli_preferences.json" = some "oldrecord"
    ∧ crashDuringSave fsWithPrefsFile "/Users/u/.7zip_cli_preferences.json" "newrecord" 1
        "/Users/u/.7zip_cli_preferences.json" = some ""
    ∧ ("" : String) ≠ "oldrecord" ∧ ("" : String) ≠ "newrecord" :=
  ⟨by decide, by decide, by decide, by decide⟩

/-- C9, amended: saving truncates the preferences file in place and then
writes the record; an interruption between the two steps leaves an empty
file (the previous record is lost), and only an uninterrupted save leaves the
new record — persistence is not crash-atomic. -/
theorem C9_amended (st : FsState) (config_file data : String) :
    crashDuringSave st config_file data 1 config_file = some ""
    ∧ crashDuringSave st config_file data 2 config_file = some data := by
  constructor <;> simp [crashDuringSave, runFsOps, save_preferences_ops, applyFsOp]

/-- C10: the create-archive pipeline is insensitive to the exclusion-patterns
preference — two runs identical except for `exclude_patterns` construct the
same archiver argument list, for every environment and session. -/
theorem C10_theorem (seven_zip_path : String) (prefs : Preferences) (pats : List String)
    (env : OutputPathEnv) (validated_files : List String) (sess : CreateSession)
    (total_size : ℕ) :
    create_archive_cmd seven_zip_path { prefs with exclude_patterns := pats } env
        validated_files sess total_size
      = create_archive_cmd seven_zip_path prefs env validated_files sess total_size := rfl
